import Mathlib

/-!
Verification development for the DNSChanger repository.

Shallow embedding of the apply/verify/rollback core:
* `src/core/dns_verifier.py` (snapshot store, verification engine,
  synchronous rollback),
* `src/ps/ps_adapter.py` (resolver configurator and interface inventory),
* `src/ps/doh_manager.py` (encrypted-resolution manager),
* `src/ui/main_window.py` (orchestrator flow and the delayed rollback timer).

The OS side (PowerShell command surface) is modelled as an explicit world
state `PSWorld` carrying the per-interface DNS configuration, the DoH
template registrations, the registry flag for encrypted-only mode and a
flag `execOk` saying whether OS commands currently succeed.  Mutating
adapter invocations are logged in `PSWorld.calls`, which lets theorems
state which adapter call an operation performs (e.g. that rollback uses
`validate := false`).  Wall-clock readings (Python `time.time`) enter the
embedding as explicit parameters of type `ℚ`.
-/

namespace DNSChanger

/-- Status values of `VerificationStatus` in `src/core/dns_verifier.py`
(`SUCCESS`, `FAILED`, `TIMEOUT`, `PARTIAL`; the last one is named `part`
here because of a Lean keyword clash). -/
inductive VerificationStatus where
  | success
  | failed
  | timeout
  | part
  deriving DecidableEq, Repr

/-- The `VerificationResult` dataclass of `src/core/dns_verifier.py`.
Durations (Python floats holding milliseconds) are modelled as `ℚ`. -/
structure VerificationResult where
  status : VerificationStatus
  successful_domains : List String
  failed_domains : List String
  errors : List String
  duration_ms : ℚ
  deriving DecidableEq, Repr

/-- The `is_successful` property of `VerificationResult`. -/
def VerificationResult.is_successful (r : VerificationResult) : Bool :=
  r.status = VerificationStatus.success

/-- The `success_rate` property of `VerificationResult`:
`len(successful) / (len(successful) + len(failed))`, and `0.0` when the
total is zero. -/
def VerificationResult.success_rate (r : VerificationResult) : ℚ :=
  if r.successful_domains.length + r.failed_domains.length = 0 then 0
  else (r.successful_domains.length : ℚ) /
    ((r.successful_domains.length + r.failed_domains.length : ℕ) : ℚ)

/-- The `DNSSnapshot` dataclass of `src/core/dns_verifier.py`. -/
structure DNSSnapshot where
  interface_index : String
  interface_name : String
  dns_servers : List String
  is_dhcp : Bool
  timestamp : ℚ
  deriving DecidableEq, Repr

/-- DNS configuration of one interface as held by the operating system:
either automatic (DHCP, no explicit servers) or an explicit server list. -/
inductive IfaceConfig where
  | automatic
  | explicit (addrs : List String)
  deriving DecidableEq, Repr

/-- A mutating resolver-configurator invocation, as issued by
`src/ps/ps_adapter.py` (`Set-DnsClientServerAddress` with or without
`-ResetServerAddresses`).  Recorded so theorems can state which call an
operation performs, including the `validate` flag. -/
inductive AdapterCall where
  | setCall (interface_index : String) (dns : List String) (validate : Bool)
  | resetCall (interface_index : String)
  deriving DecidableEq, Repr

/-- The `DoHServer` dataclass of `src/ps/doh_manager.py`: one OS-level DoH
template registration. -/
structure DoHServer where
  server_address : String
  doh_template : String
  auto_upgrade : Bool
  allow_fallback : Bool
  deriving DecidableEq, Repr

/-- State of the platform the PowerShell adapter talks to.  `execOk`
models whether the underlying OS commands currently succeed (permissions,
PowerShell availability, ...); `encDohEbpf` is the `EnableDohEbpf`
registry value (absent when `none`). -/
structure PSWorld where
  configs : String → IfaceConfig
  execOk : Bool
  dohRegs : List DoHServer
  encDohEbpf : Option Bool
  calls : List AdapterCall

/-- `PowerShellAdapter.get_dns_servers` (src/ps/ps_adapter.py lines
238-277): on a failed query command it logs and returns `[]`; on success
it returns the interface's `ServerAddresses`, which is `[]` for an
automatic (DHCP) interface. -/
def PSWorld.get_dns_servers (w : PSWorld) (interface_index : String) : List String :=
  if !w.execOk then []
  else
    match w.configs interface_index with
    | IfaceConfig.automatic => []
    | IfaceConfig.explicit addrs => addrs

/-- `PowerShellAdapter.set_dns_servers` (src/ps/ps_adapter.py lines
279-314): rejects an empty server list before running any command;
otherwise runs `Set-DnsClientServerAddress` (with `-Validate` iff
`validate`) and reports the outcome. -/
def PSWorld.set_dns_servers (w : PSWorld) (interface_index : String)
    (dns_servers : List String) (validate : Bool) : Bool × String × PSWorld :=
  if dns_servers = [] then (false, "No DNS servers provided", w)
  else
    let w1 : PSWorld :=
      { w with calls := w.calls ++ [AdapterCall.setCall interface_index dns_servers validate] }
    if w.execOk then
      (true, "DNS servers applied successfully",
        { w1 with configs := fun i =>
            if i = interface_index then IfaceConfig.explicit dns_servers else w.configs i })
    else (false, "command failed", w1)

/-- `PowerShellAdapter.reset_dns` (src/ps/ps_adapter.py lines 316-335):
`Set-DnsClientServerAddress -ResetServerAddresses`, reverting the
interface to automatic (DHCP). -/
def PSWorld.reset_dns (w : PSWorld) (interface_index : String) : Bool × String × PSWorld :=
  let w1 : PSWorld := { w with calls := w.calls ++ [AdapterCall.resetCall interface_index] }
  if w.execOk then
    (true, "DNS reset to automatic (DHCP)",
      { w1 with configs := fun i =>
          if i = interface_index then IfaceConfig.automatic else w.configs i })
  else (false, "command failed", w1)

/-- The snapshot dictionary `DNSVerifier.snapshots` of
`src/core/dns_verifier.py`, keyed by interface index. -/
structure DNSVerifierState where
  snapshots : String → Option DNSSnapshot

/-- `DNSVerifier.create_snapshot` (src/core/dns_verifier.py lines 80-109),
abstracted over the outcome of the `get_dns_servers` query: `.error`
models the query raising an exception (the `except` branch returns
`False` and stores nothing), `.ok` the query returning a server list.
`is_dhcp` is `len(dns_servers) == 0`. -/
def create_snapshot_outcome (st : DNSVerifierState) (interface_index interface_name : String)
    (timestamp : ℚ) (query : Except String (List String)) : Bool × DNSVerifierState :=
  match query with
  | Except.error _ => (false, st)
  | Except.ok dns_servers =>
    let is_dhcp : Bool := dns_servers.length == 0
    let snap : DNSSnapshot :=
      { interface_index := interface_index
        interface_name := interface_name
        dns_servers := if !is_dhcp then dns_servers else []
        is_dhcp := is_dhcp
        timestamp := timestamp }
    (true, { snapshots := fun i => if i = interface_index then some snap else st.snapshots i })

/-- `DNSVerifier.create_snapshot` against the world model, where the
`get_dns_servers` call is total (it catches its own errors and returns
`[]` on a failed command). -/
def create_snapshot (st : DNSVerifierState) (w : PSWorld)
    (interface_index interface_name : String) (timestamp : ℚ) : Bool × DNSVerifierState :=
  create_snapshot_outcome st interface_index interface_name timestamp
    (Except.ok (w.get_dns_servers interface_index))

/-- `DNSVerifier.rollback` (src/core/dns_verifier.py lines 111-151): with
no snapshot for the interface it reports failure and touches nothing;
with a DHCP snapshot it calls `reset_dns`; otherwise it calls
`set_dns_servers` with the snapshot's servers and `validate := false`
(validation is skipped on rollback). -/
def rollback (st : DNSVerifierState) (w : PSWorld) (interface_index : String) :
    Bool × String × PSWorld :=
  match st.snapshots interface_index with
  | none => (false, "No snapshot found for interface " ++ interface_index, w)
  | some snap =>
    if snap.is_dhcp then
      match w.reset_dns interface_index with
      | (true, _, w1) => (true, "Rolled back " ++ snap.interface_name ++ " to DHCP", w1)
      | (false, message, w1) =>
        (false, "Failed to rollback " ++ snap.interface_name ++ ": " ++ message, w1)
    else
      match w.set_dns_servers interface_index snap.dns_servers false with
      | (true, _, w1) => (true, "Rolled back " ++ snap.interface_name ++ " to previous DNS", w1)
      | (false, message, w1) =>
        (false, "Failed to rollback " ++ snap.interface_name ++ ": " ++ message, w1)

/-- `DNSVerifier.verify_dns` (src/core/dns_verifier.py lines 153-219).
`resolve d` is the outcome of `resolve_dns` for domain `d` (an exception
while resolving counts as failure, exactly as the `except` branch does);
`resolveErr d` its error text; `duration_ms` the measured elapsed wall
time.  Status: all resolved → SUCCESS; some resolved → PARTIAL; none and
`duration_ms > timeout * 1000 * len(domains)` → TIMEOUT; else FAILED. -/
def verify_dns (resolve : String → Bool) (resolveErr : String → String)
    (test_domains : List String) (timeout : ℕ) (duration_ms : ℚ) : VerificationResult :=
  let successful_domains := test_domains.filter (fun d => resolve d)
  let failed_domains := test_domains.filter (fun d => !resolve d)
  let errors := failed_domains.map (fun d => d ++ ": " ++ resolveErr d)
  let status :=
    if successful_domains.length = test_domains.length then VerificationStatus.success
    else if successful_domains.length > 0 then VerificationStatus.part
    else if duration_ms > ((timeout * 1000 * test_domains.length : ℕ) : ℚ) then
      VerificationStatus.timeout
    else VerificationStatus.failed
  { status := status
    successful_domains := successful_domains
    failed_domains := failed_domains
    errors := errors
    duration_ms := duration_ms }

/-- `DNSVerifier.verify_and_rollback_on_failure` (src/core/dns_verifier.py
lines 221-259): run `verify_dns`; pass (no rollback, message `none`) iff
`success_rate >= success_threshold`; otherwise invoke `rollback` for the
interface and return its message, whether or not the rollback itself
succeeded. -/
def verify_and_rollback_on_failure (st : DNSVerifierState) (w : PSWorld)
    (interface_index : String) (resolve : String → Bool) (resolveErr : String → String)
    (test_domains : List String) (timeout : ℕ) (duration_ms : ℚ)
    (success_threshold : ℚ) : (Bool × VerificationResult × Option String) × PSWorld :=
  let result := verify_dns resolve resolveErr test_domains timeout duration_ms
  if result.success_rate ≥ success_threshold then ((true, result, none), w)
  else
    let rb := rollback st w interface_index
    ((false, result, some rb.2.1), rb.2.2)

/-- `DoHManager.remove_doh_server` (src/ps/doh_manager.py lines 187-210):
refuses outright when the platform lacks DoH support; otherwise runs
`Remove-DnsClientDohServerAddress ... -ErrorAction SilentlyContinue` and
reports success even when the command fails, because an address that is
not registered counts as already removed. -/
def remove_doh_server (doh_supported : Bool) (w : PSWorld) (server_address : String) :
    Bool × String × PSWorld :=
  if !doh_supported then (false, "DoH is not supported on this Windows version", w)
  else
    if w.execOk then
      (true, "DoH server removed: " ++ server_address,
        { w with dohRegs := w.dohRegs.filter (fun s => s.server_address ≠ server_address) })
    else (true, "", w)

/-- One `Remove-DnsClientDohServerAddress` plus
`Add-DnsClientDohServerAddress` round for one address, as issued inside
the script generated by `configure_provider_doh` (src/ps/doh_manager.py
lines 420-436): drop any registration for the address, then append the
new one. -/
def registerDohEntry (regs : List DoHServer) (server_address doh_template : String)
    (auto_upgrade allow_fallback : Bool) : List DoHServer :=
  regs.filter (fun s => s.server_address ≠ server_address) ++
    [{ server_address := server_address
       doh_template := doh_template
       auto_upgrade := auto_upgrade
       allow_fallback := allow_fallback }]

/-- `DoHManager.configure_provider_doh` (src/ps/doh_manager.py lines
375-473).  The Python builds one PowerShell script and runs it under
`$ErrorActionPreference = 'Stop'`:
1. set the DNS servers with `-Validate` (a failure aborts the script with
   exit 1, making the whole call fail);
2. compute `needs_doh`: the template interpolated as a string must differ
   from `'None'` (how Python renders `None`) and from `''`;
3. if the manager was built with `doh_supported`, register a DoH template
   for every address (remove + add) and, when `encryption_supported` and
   the policy asks for encrypted-only, set the `EnableDohEbpf` registry
   value; otherwise append a warning message that DoH is not supported
   (the script still exits successfully).
The script's `$msgs` lines are returned as a list (the source joins them
with a newline); the warning message carries an emoji prefix in the
source which is elided here. -/
def configure_provider_doh (doh_supported encryption_supported : Bool) (w : PSWorld)
    (interface_index : String) (dns_servers : List String) (doh_template : Option String)
    (policy_encrypted_only policy_auto_upgrade policy_allow_fallback : Bool) :
    Bool × List String × PSWorld :=
  if dns_servers = [] ∨ w.execOk = false then (false, [], w)
  else
    let w1 : PSWorld :=
      { w with
        configs := fun i =>
          if i = interface_index then IfaceConfig.explicit dns_servers else w.configs i
        calls := w.calls ++ [AdapterCall.setCall interface_index dns_servers true] }
    let msgs1 := ["DNS servers applied successfully"]
    let needs_doh : Bool :=
      match doh_template with
      | none => false
      | some t => t != "None" && t != ""
    if doh_supported then
      if needs_doh then
        let t := doh_template.getD ""
        let w2 : PSWorld :=
          { w1 with dohRegs := (dns_servers.foldl
              (fun regs d => registerDohEntry regs d t policy_auto_upgrade policy_allow_fallback)
              w1.dohRegs) }
        let msgs2 := msgs1 ++ dns_servers.map (fun d => "DoH configured for " ++ d)
        if encryption_supported && policy_encrypted_only then
          (true, msgs2 ++ ["Encryption: Encrypted only"], { w2 with encDohEbpf := some true })
        else (true, msgs2, w2)
      else (true, msgs1, w1)
    else
      if needs_doh then
        (true, msgs1 ++ ["DoH not supported on this Windows version"], w1)
      else (true, msgs1, w1)

/-- The `InterfaceType` enum of `src/ps/ps_adapter.py`. -/
inductive InterfaceType where
  | physical
  | virtual
  | loopback
  | vpn
  | tap
  | unknown
  deriving DecidableEq, Repr

/-- The `NetworkAdapter` dataclass of `src/ps/ps_adapter.py`. -/
structure NetworkAdapter where
  name : String
  index : String
  description : String
  status : String
  link_speed : Option String
  interface_type : InterfaceType
  is_physical : Bool
  mac_address : Option String
  deriving DecidableEq, Repr

/-- The `display_name` property of `NetworkAdapter`: the name followed by
the bracketed link speed when that field is set and non-empty (Python
truthiness of the string). -/
def NetworkAdapter.display_name (a : NetworkAdapter) : String :=
  match a.link_speed with
  | none => a.name
  | some s => if s = "" then a.name else a.name ++ " [" ++ s ++ "]"

/-- Decides whether the second character list occurs at the head of the
first (structural helper for substring search). -/
def charsStartWith : List Char → List Char → Bool
  | _, [] => true
  | [], _ :: _ => false
  | a :: as, b :: bs => a = b && charsStartWith as bs

/-- Decides whether the second character list occurs anywhere inside the
first. -/
def charsHaveSub : List Char → List Char → Bool
  | hay, pat =>
    match hay with
    | [] => pat.isEmpty
    | _ :: t => charsStartWith hay pat || charsHaveSub t pat

/-- Python's `pat in s` substring test on strings. -/
def strHasSub (s pat : String) : Bool :=
  charsHaveSub s.data pat.data

/-- The `VIRTUAL_PATTERNS` constant of `PowerShellAdapter`. -/
def VIRTUAL_PATTERNS : List String :=
  ["Loopback", "Virtual", "VMware", "VirtualBox", "Hyper-V",
   "TAP", "VPN", "Wi-Fi Direct", "Bluetooth", "vEthernet"]

/-- `PowerShellAdapter._detect_interface_type` (src/ps/ps_adapter.py lines
223-236): classify by case-insensitive substring tests over
`name + " " + description + " " + iface_type`. -/
def detect_interface_type (name description iface_type : String) : InterfaceType :=
  let combined := (name ++ " " ++ description ++ " " ++ iface_type).toLower
  if strHasSub combined "loopback" then InterfaceType.loopback
  else if ["vpn", "ras", "pptp", "l2tp"].any (fun p => strHasSub combined p) then
    InterfaceType.vpn
  else if strHasSub combined "tap" || strHasSub combined "tun" then InterfaceType.tap
  else if VIRTUAL_PATTERNS.any (fun p => strHasSub combined p.toLower) then
    InterfaceType.virtual
  else InterfaceType.physical

/-- One decoded row of the `Get-NetAdapter | ... | ConvertTo-Json` output
consumed by `get_network_adapters` (a JSON object; absent keys are
`none`).  `InterfaceIndex` is kept as the string Python's `str()` turns
it into. -/
structure AdapterJson where
  jName : Option String
  jInterfaceIndex : Option String
  jInterfaceDescription : Option String
  jStatus : Option String
  jLinkSpeed : Option String
  jInterfaceType : Option String
  jMacAddress : Option String
  deriving DecidableEq, Repr

/-- Shape of a PowerShell JSON query reply at the decoded level:
the command failed, succeeded with empty output, returned one object,
returned an array, or returned text that fails JSON parsing. -/
inductive PSJson (α : Type) where
  | failure
  | empty
  | single (a : α)
  | listed (xs : List α)
  | malformed
  deriving DecidableEq, Repr

/-- Builds one `NetworkAdapter` from a decoded JSON row, as the loop body
of `get_network_adapters` does (src/ps/ps_adapter.py lines 194-211),
including the `_detect_interface_type` classification and the dict-`get`
defaults. -/
def mkAdapter (item : AdapterJson) : NetworkAdapter :=
  let adapter_type := detect_interface_type (item.jName.getD "")
    (item.jInterfaceDescription.getD "") (item.jInterfaceType.getD "")
  { name := item.jName.getD "Unknown"
    index := item.jInterfaceIndex.getD ""
    description := item.jInterfaceDescription.getD ""
    status := item.jStatus.getD "Unknown"
    link_speed := item.jLinkSpeed
    interface_type := adapter_type
    is_physical := adapter_type = InterfaceType.physical
    mac_address := item.jMacAddress }

/-- `PowerShellAdapter.get_network_adapters` (src/ps/ps_adapter.py lines
146-221) downstream of the PowerShell query, whose reply arrives here
already decoded: a failed command, empty output or malformed JSON yields
`[]`; a single JSON object is wrapped into a one-element list; rows are
converted in the order the platform returned them, with no sorting. -/
def get_network_adapters (reply : PSJson AdapterJson) : List NetworkAdapter :=
  match reply with
  | PSJson.failure => []
  | PSJson.empty => []
  | PSJson.malformed => []
  | PSJson.single a => [mkAdapter a]
  | PSJson.listed xs => xs.map mkAdapter

/-- Case-insensitive lexicographic comparison of character lists, via the
numeric value of the lowercased characters. -/
def charsLeCI : List Char → List Char → Bool
  | [], _ => true
  | _ :: _, [] => false
  | a :: as, b :: bs =>
    let x := a.toLower.toNat
    let y := b.toLower.toNat
    if x = y then charsLeCI as bs else decide (x < y)

/-- Case-insensitive string order used to state the spec's "stable sort by
display name, case-insensitive". -/
def strLeCI (a b : String) : Bool :=
  charsLeCI a.data b.data

/-- The adapter list is in case-insensitive display-name order. -/
def sortedByDisplayNameCI : List NetworkAdapter → Bool
  | [] => true
  | [_] => true
  | a :: b :: rest => strLeCI a.display_name b.display_name && sortedByDisplayNameCI (b :: rest)

/-- Delayed-rollback timer state of `DNSChangerApp`
(src/ui/main_window.py): `rollback_timer` is the instance attribute
holding the most recently started `threading.Timer`; `started` records
every timer ever created and started (with the interface indexes of the
`selected` argument it will roll back); `cancelled` records every timer
on which `cancel()` was invoked.  A started, non-cancelled
`threading.Timer` fires once its delay elapses — dropping the Python
reference does not stop it. -/
structure TimerState where
  rollback_timer : Option ℕ
  started : List (ℕ × List String)
  cancelled : List ℕ
  nextId : ℕ
  deriving DecidableEq, Repr

/-- The timer state of a freshly constructed `DNSChangerApp`
(`self.rollback_timer = None`). -/
def initialTimerState : TimerState :=
  { rollback_timer := none, started := [], cancelled := [], nextId := 0 }

/-- Timer behaviour of `DNSChangerApp._verify_dns_and_rollback`
(src/ui/main_window.py lines 494-518), the step that runs after the apply
phase of one apply operation: when at least one interface was applied and
verification failed, it creates and starts
`threading.Timer(30, self._auto_rollback, args=(selected,))` and
overwrites `self.rollback_timer` with it.  No path in the source ever
invokes `cancel()` on the previous timer (or on any timer), so
`cancelled` is never extended. -/
def verify_dns_and_rollback_timers (st : TimerState) (selected : List (String × String))
    (success_count : ℕ) (verify_successful : Bool) : TimerState :=
  if success_count > 0 then
    if verify_successful then st
    else
      { rollback_timer := some st.nextId
        started := st.started ++ [(st.nextId, selected.map (fun p => p.1))]
        cancelled := st.cancelled
        nextId := st.nextId + 1 }
  else st

/-- Timers that have been started and never cancelled: each of these will
fire `_auto_rollback` once its 30-second delay elapses. -/
def pendingTimers (st : TimerState) : List (ℕ × List String) :=
  st.started.filter (fun t => !(st.cancelled.contains t.1))

/-- `_auto_rollback` (src/ui/main_window.py lines 520-526) will eventually
run for this interface index: some started, never-cancelled timer has it
in its `selected` list. -/
def rollbackWillFireFor (st : TimerState) (interface_index : String) : Bool :=
  (pendingTimers st).any (fun t => t.2.contains interface_index)

/-! Shared helper lemmas about filtered-list lengths, used to relate the
counting done by `verify_dns` to per-domain resolution outcomes. -/

/-- A filter keeps the whole list exactly when the predicate holds on
every element. -/
theorem filter_length_eq_iff {α : Type} (p : α → Bool) (l : List α) :
    (l.filter p).length = l.length ↔ ∀ a ∈ l, p a = true := by
  constructor
  · intro h
    exact List.filter_eq_self.mp ((l.filter_sublist).eq_of_length h)
  · intro h
    rw [List.filter_eq_self.mpr h]

/-- A filter is non-empty exactly when the predicate holds somewhere. -/
theorem filter_length_pos_iff {α : Type} (p : α → Bool) (l : List α) :
    0 < (l.filter p).length ↔ ∃ a ∈ l, p a = true := by
  rw [List.length_pos]
  constructor
  · intro h
    by_contra hc
    push_neg at hc
    refine h (List.filter_eq_nil_iff.mpr ?_)
    intro a ha
    simpa using hc a ha
  · rintro ⟨a, ha, hpa⟩ hnil
    have := List.filter_eq_nil_iff.mp hnil a ha
    simp [hpa] at this

/-- A filter is empty exactly when the predicate fails everywhere. -/
theorem filter_length_eq_zero_iff {α : Type} (p : α → Bool) (l : List α) :
    (l.filter p).length = 0 ↔ ∀ a ∈ l, p a = false := by
  rw [List.length_eq_zero, List.filter_eq_nil_iff]
  simp

/-! Concrete fixtures for witnesses and counterexamples. -/

/-- A snapshot store holding no snapshot for any interface. -/
def emptyStore : DNSVerifierState := { snapshots := fun _ => none }

/-- A healthy platform where every interface has the explicit servers
`8.8.8.8, 8.8.4.4` configured. -/
def googleWorld : PSWorld :=
  { configs := fun _ => IfaceConfig.explicit ["8.8.8.8", "8.8.4.4"]
    execOk := true, dohRegs := [], encDohEbpf := none, calls := [] }

/-- A healthy platform where every interface is automatic (DHCP). -/
def autoWorld : PSWorld :=
  { configs := fun _ => IfaceConfig.automatic
    execOk := true, dohRegs := [], encDohEbpf := none, calls := [] }

/-- A healthy platform where every interface has the explicit server
`1.1.1.1` configured (a configuration differing from `googleWorld`). -/
def cloudflareWorld : PSWorld :=
  { configs := fun _ => IfaceConfig.explicit ["1.1.1.1"]
    execOk := true, dohRegs := [], encDohEbpf := none, calls := [] }

/-- A platform whose OS command layer fails every invocation. -/
def brokenWorld : PSWorld :=
  { configs := fun _ => IfaceConfig.explicit ["8.8.8.8"]
    execOk := false, dohRegs := [], encDohEbpf := none, calls := [] }

/-- A decoded adapter row named `Zeta`. -/
def adapterRowZeta : AdapterJson :=
  { jName := some "Zeta", jInterfaceIndex := some "2"
    jInterfaceDescription := some "Intel Adapter", jStatus := some "Up"
    jLinkSpeed := none, jInterfaceType := none, jMacAddress := none }

/-- A decoded adapter row named `Alpha`. -/
def adapterRowAlpha : AdapterJson :=
  { jName := some "Alpha", jInterfaceIndex := some "1"
    jInterfaceDescription := some "Realtek Adapter", jStatus := some "Up"
    jLinkSpeed := none, jInterfaceType := none, jMacAddress := none }

/-! Claim theorems. -/

/-- C1 (code bug, evaluated at the failing input): the source never calls
`cancel()` on `self.rollback_timer`, so after an apply for interface
index `7` whose verification fails (which starts the 30-second rollback
timer) followed by an apply for the same interface whose verification
succeeds, the first timer is still pending and `_auto_rollback` will
still fire for interface `7` — the claimed cancellation does not happen.
Moreover two failed verifications in a row leave two pending rollback
timers at once, contradicting the at-most-one-pending-timer invariant. -/
theorem C1_stale_rollback_timer_fires :
    rollbackWillFireFor
      (verify_dns_and_rollback_timers
        (verify_dns_and_rollback_timers initialTimerState [("7", "Ethernet")] 1 false)
        [("7", "Ethernet")] 1 true) "7" = true ∧
    (pendingTimers
      (verify_dns_and_rollback_timers
        (verify_dns_and_rollback_timers initialTimerState [("7", "Ethernet")] 1 false)
        [("7", "Ethernet")] 1 false)).length = 2 := by
  decide

/-- C6 counterexample: on a platform without DoH support
(`doh_supported := false`), `remove_doh_server` fails on the second of
two successive calls for the same address (it fails on every call), so
the unrestricted idempotence claim is false as stated. -/
theorem C6_unsupported_counterexample :
    (remove_doh_server false
        (remove_doh_server false autoWorld "8.8.8.8").2.2 "8.8.8.8").1 = false ∧
    (remove_doh_server false autoWorld "8.8.8.8").2.1 =
      "DoH is not supported on this Windows version" := by
  exact ⟨rfl, rfl⟩

/-- C6 (amended): when the platform supports DoH, `remove_doh_server`
never fails — in particular, for every address and every world, the
second of two successive calls reports success, because removal of an
address that is not currently registered is treated as success. -/
theorem C6_remove_idempotent_when_supported (w : PSWorld) (addr : String) :
    (remove_doh_server true (remove_doh_server true w addr).2.2 addr).1 = true ∧
    (remove_doh_server true w addr).1 = true := by
  cases h : w.execOk <;> simp [remove_doh_server, h]

/-- C7: restoring an interface that has no live snapshot is a reported
failure naming the missing snapshot, and the world — configuration,
registrations and call log alike — is untouched; it is not a silent
no-op success. -/
theorem C7_rollback_missing_snapshot (st : DNSVerifierState) (w : PSWorld)
    (interface_index : String) (h : st.snapshots interface_index = none) :
    rollback st w interface_index =
      (false, "No snapshot found for interface " ++ interface_index, w) := by
  unfold rollback
  rw [h]

/-- C7 witness: the empty store has no snapshot for interface `7`, and
restore on it reports the failure and returns the world unchanged. -/
theorem C7_rollback_missing_snapshot_witness :
    emptyStore.snapshots "7" = none ∧
    rollback emptyStore googleWorld "7" =
      (false, "No snapshot found for interface " ++ "7", googleWorld) :=
  ⟨rfl, C7_rollback_missing_snapshot emptyStore googleWorld "7" rfl⟩

/-- C8 counterexample: a platform reply listing `Zeta` before `Alpha`
makes `get_network_adapters` return a non-empty list in exactly that
order, which is not sorted by display name case-insensitively — the
function performs no sorting. -/
theorem C8_unsorted_counterexample :
    (get_network_adapters (PSJson.listed [adapterRowZeta, adapterRowAlpha])).map
        (fun a => a.display_name) = ["Zeta", "Alpha"] ∧
    sortedByDisplayNameCI
      (get_network_adapters (PSJson.listed [adapterRowZeta, adapterRowAlpha])) = false := by
  decide

/-- C8 (amended): `get_network_adapters` returns the adapters in the
order the platform query produced them (converting each row in place, no
sorting), wraps a single JSON object into a one-element list, and
returns an empty sequence rather than an error when the query fails,
returns no output, or returns malformed JSON. -/
theorem C8_adapter_order_and_empty (xs : List AdapterJson) (a : AdapterJson) :
    (get_network_adapters (PSJson.listed xs)).map (fun ad => ad.name) =
      xs.map (fun item => item.jName.getD "Unknown") ∧
    get_network_adapters (PSJson.single a) = [mkAdapter a] ∧
    get_network_adapters PSJson.failure = ([] : List NetworkAdapter) ∧
    get_network_adapters PSJson.empty = ([] : List NetworkAdapter) ∧
    get_network_adapters PSJson.malformed = ([] : List NetworkAdapter) := by
  refine ⟨?_, rfl, rfl, rfl, rfl⟩
  simp [get_network_adapters, mkAdapter]

/-- C9: for every `VerificationResult`, `success_rate` lies in `[0, 1]`
and equals the number of resolved domains divided by the total of
resolved plus failed domains, with value `0` when both counts are
zero. -/
theorem C9_success_rate_bounds (r : VerificationResult) :
    0 ≤ r.success_rate ∧ r.success_rate ≤ 1 ∧
    r.success_rate =
      (if r.successful_domains.length + r.failed_domains.length = 0 then 0
       else (r.successful_domains.length : ℚ) /
         ((r.successful_domains.length : ℚ) + (r.failed_domains.length : ℚ))) := by
  unfold VerificationResult.success_rate
  by_cases h : r.successful_domains.length + r.failed_domains.length = 0
  · simp [h]
  · have hpos : (0 : ℚ) < ((r.successful_domains.length + r.failed_domains.length : ℕ) : ℚ) :=
      by exact_mod_cast Nat.pos_of_ne_zero h
    refine ⟨?_, ?_, ?_⟩
    · rw [if_neg h]
      exact div_nonneg (Nat.cast_nonneg _) (le_of_lt hpos)
    · rw [if_neg h]
      rw [div_le_one hpos]
      exact_mod_cast Nat.le_add_right _ _
    · rw [if_neg h, if_neg h]
      push_cast
      ring_nf

/-- C10: when the underlying address-query command fails without raising
an exception, `get_dns_servers` returns the empty list, so
`create_snapshot` on such an interface still reports success and records
an automatic/DHCP snapshot (`is_dhcp = true`); capture reports failure —
leaving the store untouched — only when an exception is raised. -/
theorem C10_capture_on_failed_query (st : DNSVerifierState) (w : PSWorld)
    (interface_index interface_name : String) (ts : ℚ) (e : String)
    (h : w.execOk = false) :
    w.get_dns_servers interface_index = [] ∧
    (create_snapshot st w interface_index interface_name ts).1 = true ∧
    (create_snapshot st w interface_index interface_name ts).2.snapshots interface_index =
      some { interface_index := interface_index, interface_name := interface_name
             dns_servers := [], is_dhcp := true, timestamp := ts } ∧
    create_snapshot_outcome st interface_index interface_name ts (Except.error e) =
      (false, st) := by
  have hget : w.get_dns_servers interface_index = [] := by
    unfold PSWorld.get_dns_servers
    rw [h]
    rfl
  refine ⟨hget, ?_, ?_, rfl⟩
  · unfold create_snapshot
    rw [hget]
    rfl
  · unfold create_snapshot
    rw [hget]
    simp [create_snapshot_outcome]

/-- C10 witness: on the broken platform — every OS command fails — the
query yields `[]`, capture for interface `7` succeeds and records a DHCP
snapshot, and only a raised exception makes capture report failure. -/
theorem C10_capture_on_failed_query_witness :
    brokenWorld.execOk = false ∧
    brokenWorld.get_dns_servers "7" = [] ∧
    (create_snapshot emptyStore brokenWorld "7" "Ethernet" 0).1 = true ∧
    (create_snapshot emptyStore brokenWorld "7" "Ethernet" 0).2.snapshots "7" =
      some { interface_index := "7", interface_name := "Ethernet"
             dns_servers := [], is_dhcp := true, timestamp := 0 } ∧
    create_snapshot_outcome emptyStore "7" "Ethernet" 0 (Except.error "boom") =
      (false, emptyStore) := by
  have h := C10_capture_on_failed_query emptyStore brokenWorld "7" "Ethernet" 0 "boom" rfl
  exact ⟨rfl, h.1, h.2.1, h.2.2.1, h.2.2.2⟩

/-- C2 counterexample: one test domain, per-domain timeout 5 s, nothing
resolves, and the elapsed time is exactly the total budget of 5000 ms —
so the elapsed duration is at least (but not strictly greater than) the
budget.  The claim demands status Timeout here, but `verify_dns` uses a
strict comparison and returns Failed. -/
theorem C2_boundary_counterexample :
    (verify_dns (fun _ => false) (fun _ => "server failure") ["example.com"] 5
        5000).successful_domains = [] ∧
    ((5 * 1000 * (["example.com"] : List String).length : ℕ) : ℚ) ≤ 5000 ∧
    (verify_dns (fun _ => false) (fun _ => "server failure") ["example.com"] 5 5000).status ≠
      VerificationStatus.timeout ∧
    (verify_dns (fun _ => false) (fun _ => "server failure") ["example.com"] 5 5000).status =
      VerificationStatus.failed := by
  refine ⟨rfl, by norm_num, ?_, ?_⟩ <;> decide

/-- C2 (amended): for every non-empty list of test domains, `verify_dns`
returns Success iff every domain resolved and Partial iff some but not
all resolved; when zero resolved it returns Timeout iff the elapsed
duration strictly exceeds `domains.count * timeout * 1000` milliseconds,
and Failed iff the elapsed duration is at most that total budget (the
source compares with strict `>`, not `≥`). -/
theorem C2_verify_dns_status (resolve : String → Bool) (resolveErr : String → String)
    (test_domains : List String) (timeout : ℕ) (duration_ms : ℚ)
    (hne : test_domains ≠ []) :
    ((verify_dns resolve resolveErr test_domains timeout duration_ms).status =
        VerificationStatus.success ↔ ∀ d ∈ test_domains, resolve d = true) ∧
    ((verify_dns resolve resolveErr test_domains timeout duration_ms).status =
        VerificationStatus.part ↔
      ((∃ d ∈ test_domains, resolve d = true) ∧ (∃ d ∈ test_domains, resolve d = false))) ∧
    ((∀ d ∈ test_domains, resolve d = false) →
      (((verify_dns resolve resolveErr test_domains timeout duration_ms).status =
          VerificationStatus.timeout ↔
        duration_ms > ((timeout * 1000 * test_domains.length : ℕ) : ℚ)) ∧
       ((verify_dns resolve resolveErr test_domains timeout duration_ms).status =
          VerificationStatus.failed ↔
        duration_ms ≤ ((timeout * 1000 * test_domains.length : ℕ) : ℚ)))) := by
  have hstat : (verify_dns resolve resolveErr test_domains timeout duration_ms).status =
      (if (test_domains.filter (fun d => resolve d)).length = test_domains.length then
        VerificationStatus.success
      else if (test_domains.filter (fun d => resolve d)).length > 0 then
        VerificationStatus.part
      else if duration_ms > ((timeout * 1000 * test_domains.length : ℕ) : ℚ) then
        VerificationStatus.timeout
      else VerificationStatus.failed) := rfl
  rw [hstat]
  have hall := filter_length_eq_iff (fun d => resolve d) test_domains
  have hpos := filter_length_pos_iff (fun d => resolve d) test_domains
  have hzero := filter_length_eq_zero_iff (fun d => resolve d) test_domains
  have hn0 : test_domains.length ≠ 0 := by
    simpa [List.length_eq_zero] using hne
  split_ifs with h1 h2 h3
  · -- all domains resolved: Success
    refine ⟨⟨fun _ => hall.mp h1, fun _ => rfl⟩, ⟨?_, ?_⟩, ?_⟩
    · intro hcontra
      exact absurd hcontra (by decide)
    · rintro ⟨_, d, hd, hdf⟩
      have hrd : resolve d = true := hall.mp h1 d hd
      rw [hrd] at hdf
      exact Bool.noConfusion hdf
    · intro hforall
      exfalso
      have hs0 := hzero.mpr hforall
      rw [hs0] at h1
      exact hn0 h1.symm
  · -- some but not all resolved: Partial
    refine ⟨⟨?_, ?_⟩, ⟨?_, ?_⟩, ?_⟩
    · intro hcontra
      exact absurd hcontra (by decide)
    · intro hforall
      exact absurd (hall.mpr hforall) h1
    · intro _
      refine ⟨hpos.mp h2, ?_⟩
      by_contra hc
      push_neg at hc
      refine h1 (hall.mpr ?_)
      intro a ha
      have hna := hc a ha
      cases hra : resolve a
      · exact absurd hra hna
      · rfl
    · intro _
      rfl
    · intro hforall
      have hs0 := hzero.mpr hforall
      omega
  · -- zero resolved, strictly over budget: Timeout
    have hs0 : (test_domains.filter (fun d => resolve d)).length = 0 := by omega
    refine ⟨⟨?_, ?_⟩, ⟨?_, ?_⟩, ?_⟩
    · intro hcontra
      exact absurd hcontra (by decide)
    · intro hforall
      exact absurd (hall.mpr hforall) h1
    · intro hcontra
      exact absurd hcontra (by decide)
    · rintro ⟨⟨d, hd, hdt⟩, _⟩
      have := hpos.mpr ⟨d, hd, hdt⟩
      omega
    · intro _
      refine ⟨⟨fun _ => h3, fun _ => rfl⟩, ⟨?_, ?_⟩⟩
      · intro hcontra
        exact absurd hcontra (by decide)
      · intro hle
        exact absurd h3 (not_lt.mpr hle)
  · -- zero resolved, within budget: Failed
    refine ⟨⟨?_, ?_⟩, ⟨?_, ?_⟩, ?_⟩
    · intro hcontra
      exact absurd hcontra (by decide)
    · intro hforall
      exact absurd (hall.mpr hforall) h1
    · intro hcontra
      exact absurd hcontra (by decide)
    · rintro ⟨⟨d, hd, hdt⟩, _⟩
      have := hpos.mpr ⟨d, hd, hdt⟩
      omega
    · intro _
      refine ⟨⟨?_, fun hgt => absurd hgt h3⟩, ⟨fun _ => not_lt.mp h3, fun _ => rfl⟩⟩
      intro hcontra
      exact absurd hcontra (by decide)

/-- C2 witness: with one test domain that does not resolve, a 5-second
per-domain timeout and 4000 ms elapsed (within the 5000 ms budget), the
amended characterisation applied at this input yields status Failed. -/
theorem C2_verify_dns_status_witness :
    (["example.com"] : List String) ≠ [] ∧
    ((verify_dns (fun _ => false) (fun _ => "server failure") ["example.com"] 5 4000).status =
        VerificationStatus.failed ↔
      (4000 : ℚ) ≤ ((5 * 1000 * (["example.com"] : List String).length : ℕ) : ℚ)) := by
  refine ⟨by decide, ?_⟩
  have h := C2_verify_dns_status (fun _ => false) (fun _ => "server failure")
    ["example.com"] 5 4000 (by decide)
  exact (h.2.2 (by intro d hd; rfl)).2

/-- C3: snapshot/restore round-trip.  Capturing a snapshot of interface
`idx` while its address list is the non-empty explicit list `L`, then
letting the configuration change arbitrarily (any world `w2`), then
restoring, issues exactly one `set_dns_servers` call carrying exactly `L`
with `validate := false`, and leaves the interface configured with
exactly `L`.  Capturing while the interface is automatic (the query
returns the empty list) and then restoring issues a `reset_dns` call and
leaves the interface in automatic mode, not with an empty explicit
address list. -/
theorem C3_snapshot_restore_roundtrip
    (st sta : DNSVerifierState) (w w2 wa wb : PSWorld)
    (idx name : String) (L : List String) (ts : ℚ)
    (hL : L ≠ [])
    (hw : w.execOk = true) (hconf : w.configs idx = IfaceConfig.explicit L)
    (hw2 : w2.execOk = true)
    (hwa : wa.execOk = true) (hconfa : wa.configs idx = IfaceConfig.automatic)
    (hwb : wb.execOk = true) :
    (create_snapshot st w idx name ts).1 = true ∧
    (rollback (create_snapshot st w idx name ts).2 w2 idx).1 = true ∧
    (rollback (create_snapshot st w idx name ts).2 w2 idx).2.2.configs idx =
      IfaceConfig.explicit L ∧
    (rollback (create_snapshot st w idx name ts).2 w2 idx).2.2.calls =
      w2.calls ++ [AdapterCall.setCall idx L false] ∧
    (create_snapshot sta wa idx name ts).1 = true ∧
    (rollback (create_snapshot sta wa idx name ts).2 wb idx).1 = true ∧
    (rollback (create_snapshot sta wa idx name ts).2 wb idx).2.2.configs idx =
      IfaceConfig.automatic ∧
    (rollback (create_snapshot sta wa idx name ts).2 wb idx).2.2.calls =
      wb.calls ++ [AdapterCall.resetCall idx] := by
  have hget : w.get_dns_servers idx = L := by
    unfold PSWorld.get_dns_servers
    rw [hw, hconf]
    rfl
  have hgeta : wa.get_dns_servers idx = [] := by
    unfold PSWorld.get_dns_servers
    rw [hwa, hconfa]
    rfl
  have hLlen : (L.length == 0) = false := by
    simp [List.length_eq_zero, hL]
  have hsnap : (create_snapshot st w idx name ts).2.snapshots idx =
      some { interface_index := idx, interface_name := name, dns_servers := L
             is_dhcp := false, timestamp := ts } := by
    unfold create_snapshot
    rw [hget]
    simp [create_snapshot_outcome, hLlen]
  have hsnapa : (create_snapshot sta wa idx name ts).2.snapshots idx =
      some { interface_index := idx, interface_name := name, dns_servers := []
             is_dhcp := true, timestamp := ts } := by
    unfold create_snapshot
    rw [hgeta]
    simp [create_snapshot_outcome]
  have hrb : rollback (create_snapshot st w idx name ts).2 w2 idx =
      (true, "Rolled back " ++ name ++ " to previous DNS",
        { configs := fun i => if i = idx then IfaceConfig.explicit L else w2.configs i
          execOk := w2.execOk, dohRegs := w2.dohRegs, encDohEbpf := w2.encDohEbpf
          calls := w2.calls ++ [AdapterCall.setCall idx L false] }) := by
    unfold rollback
    rw [hsnap]
    simp only [PSWorld.set_dns_servers, hw2, if_pos, if_neg hL, Bool.false_eq_true,
      if_false, if_true]
  have hrba : rollback (create_snapshot sta wa idx name ts).2 wb idx =
      (true, "Rolled back " ++ name ++ " to DHCP",
        { configs := fun i => if i = idx then IfaceConfig.automatic else wb.configs i
          execOk := wb.execOk, dohRegs := wb.dohRegs, encDohEbpf := wb.encDohEbpf
          calls := wb.calls ++ [AdapterCall.resetCall idx] }) := by
    unfold rollback
    rw [hsnapa]
    simp only [PSWorld.reset_dns, hwb, if_true]
  refine ⟨?_, ?_, ?_, ?_, ?_, ?_, ?_, ?_⟩
  · unfold create_snapshot
    rw [hget]
    rfl
  · rw [hrb]
  · rw [hrb]
    simp
  · rw [hrb]
  · unfold create_snapshot
    rw [hgeta]
    rfl
  · rw [hrba]
  · rw [hrba]
    simp
  · rw [hrba]

/-- C3 witness: capture interface `7` while it holds
`["8.8.8.8", "8.8.4.4"]`, change the system to the Cloudflare
configuration, restore — the rollback issues `set_dns_servers` with
exactly that list and `validate := false` and the interface holds it
again; capture while automatic and restore yields automatic mode. -/
theorem C3_snapshot_restore_roundtrip_witness :
    (["8.8.8.8", "8.8.4.4"] : List String) ≠ [] ∧
    (rollback (create_snapshot emptyStore googleWorld "7" "Ethernet" 0).2
        cloudflareWorld "7").2.2.configs "7" =
      IfaceConfig.explicit ["8.8.8.8", "8.8.4.4"] ∧
    (rollback (create_snapshot emptyStore googleWorld "7" "Ethernet" 0).2
        cloudflareWorld "7").2.2.calls =
      cloudflareWorld.calls ++ [AdapterCall.setCall "7" ["8.8.8.8", "8.8.4.4"] false] ∧
    (rollback (create_snapshot emptyStore autoWorld "7" "Ethernet" 0).2
        cloudflareWorld "7").2.2.configs "7" = IfaceConfig.automatic := by
  have h := C3_snapshot_restore_roundtrip emptyStore emptyStore googleWorld cloudflareWorld
    autoWorld cloudflareWorld "7" "Ethernet" ["8.8.8.8", "8.8.4.4"] 0
    (by decide) rfl rfl rfl rfl rfl rfl
  exact ⟨by decide, h.2.2.1, h.2.2.2.1, h.2.2.2.2.2.2.1⟩

/-- C4: `verify_and_rollback_on_failure` passes — returning `true` with
no rollback message and an untouched world — iff the verification
result's success rate is at least the success threshold; otherwise it
returns `false`, immediately invokes the snapshot store's restore for
the given interface, and returns that restore's message (whether or not
the restore itself succeeded). -/
theorem C4_verify_and_rollback_threshold (st : DNSVerifierState) (w : PSWorld)
    (interface_index : String) (resolve : String → Bool) (resolveErr : String → String)
    (test_domains : List String) (timeout : ℕ) (duration_ms : ℚ) (success_threshold : ℚ) :
    ((verify_and_rollback_on_failure st w interface_index resolve resolveErr test_domains
        timeout duration_ms success_threshold).1.1 = true ↔
      (verify_dns resolve resolveErr test_domains timeout duration_ms).success_rate ≥
        success_threshold) ∧
    (verify_and_rollback_on_failure st w interface_index resolve resolveErr test_domains
        timeout duration_ms success_threshold).1.2.1 =
      verify_dns resolve resolveErr test_domains timeout duration_ms ∧
    ((verify_dns resolve resolveErr test_domains timeout duration_ms).success_rate ≥
        success_threshold →
      verify_and_rollback_on_failure st w interface_index resolve resolveErr test_domains
          timeout duration_ms success_threshold =
        ((true, verify_dns resolve resolveErr test_domains timeout duration_ms, none), w)) ∧
    (¬ (verify_dns resolve resolveErr test_domains timeout duration_ms).success_rate ≥
        success_threshold →
      verify_and_rollback_on_failure st w interface_index resolve resolveErr test_domains
          timeout duration_ms success_threshold =
        ((false, verify_dns resolve resolveErr test_domains timeout duration_ms,
          some (rollback st w interface_index).2.1),
         (rollback st w interface_index).2.2)) := by
  unfold verify_and_rollback_on_failure
  by_cases h : (verify_dns resolve resolveErr test_domains timeout duration_ms).success_rate ≥
      success_threshold
  · rw [if_pos h]
    exact ⟨⟨fun _ => h, fun _ => rfl⟩, rfl, fun _ => rfl, fun hc => absurd h hc⟩
  · rw [if_neg h]
    exact ⟨⟨fun hc => Bool.noConfusion hc, fun hc => absurd hc h⟩, rfl,
      fun hc => absurd hc h, fun _ => rfl⟩

/-- C4 witness: with two test domains neither of which resolves, the
success rate 0 is below the default threshold 1/2, so the call fails,
invokes restore on the empty store for interface `7`, and returns that
restore's "no snapshot" message. -/
theorem C4_verify_and_rollback_threshold_witness :
    ¬ (verify_dns (fun _ => false) (fun _ => "server failure") ["example.com", "google.com"]
          5 100).success_rate ≥ (1 / 2 : ℚ) ∧
    verify_and_rollback_on_failure emptyStore googleWorld "7" (fun _ => false)
        (fun _ => "server failure") ["example.com", "google.com"] 5 100 (1 / 2) =
      ((false, verify_dns (fun _ => false) (fun _ => "server failure")
          ["example.com", "google.com"] 5 100,
        some (rollback emptyStore googleWorld "7").2.1),
       (rollback emptyStore googleWorld "7").2.2) := by
  have hlt : ¬ (verify_dns (fun _ => false) (fun _ => "server failure")
      ["example.com", "google.com"] 5 100).success_rate ≥ (1 / 2 : ℚ) := by
    norm_num [verify_dns, VerificationResult.success_rate]
  exact ⟨hlt,
    (C4_verify_and_rollback_threshold emptyStore googleWorld "7" (fun _ => false)
      (fun _ => "server failure") ["example.com", "google.com"] 5 100 (1 / 2)).2.2.2 hlt⟩

/-- C5: invoking `configure_provider_doh` with a DoH template present but
platform DoH support absent still applies the DNS addresses to the
interface and reports overall success, appending a message that
encrypted resolution is not supported (skipped) instead of failing the
whole operation; the DoH registration table is left untouched. -/
theorem C5_doh_unsupported_best_effort (encryption_supported : Bool) (w : PSWorld)
    (interface_index : String) (dns_servers : List String) (t : String)
    (policy_encrypted_only policy_auto_upgrade policy_allow_fallback : Bool)
    (hdns : dns_servers ≠ []) (hexec : w.execOk = true)
    (ht1 : t ≠ "None") (ht2 : t ≠ "") :
    (configure_provider_doh false encryption_supported w interface_index dns_servers
        (some t) policy_encrypted_only policy_auto_upgrade policy_allow_fallback).1 = true ∧
    "DNS servers applied successfully" ∈
      (configure_provider_doh false encryption_supported w interface_index dns_servers
        (some t) policy_encrypted_only policy_auto_upgrade policy_allow_fallback).2.1 ∧
    "DoH not supported on this Windows version" ∈
      (configure_provider_doh false encryption_supported w interface_index dns_servers
        (some t) policy_encrypted_only policy_auto_upgrade policy_allow_fallback).2.1 ∧
    (configure_provider_doh false encryption_supported w interface_index dns_servers
        (some t) policy_encrypted_only policy_auto_upgrade
        policy_allow_fallback).2.2.configs interface_index =
      IfaceConfig.explicit dns_servers ∧
    (configure_provider_doh false encryption_supported w interface_index dns_servers
        (some t) policy_encrypted_only policy_auto_upgrade
        policy_allow_fallback).2.2.dohRegs = w.dohRegs := by
  have hcond : ¬ (dns_servers = [] ∨ w.execOk = false) := by
    rintro (hc | hc)
    · exact hdns hc
    · rw [hexec] at hc
      exact Bool.noConfusion hc
  have hneeds : ((t != "None") && (t != "")) = true := by
    simp [bne_iff_ne, ht1, ht2]
  unfold configure_provider_doh
  rw [if_neg hcond]
  simp [hneeds]

/-- C5 witness: applying `["1.1.1.1"]` with the Cloudflare DoH template on
a DoH-less platform succeeds, reports the skip message alongside the
address-apply message, configures the interface, and registers no DoH
template. -/
theorem C5_doh_unsupported_best_effort_witness :
    (["1.1.1.1"] : List String) ≠ [] ∧ googleWorld.execOk = true ∧
    (configure_provider_doh false true googleWorld "7" ["1.1.1.1"]
        (some "https://cloudflare-dns.example/dns-query") false true false).1 = true ∧
    "DoH not supported on this Windows version" ∈
      (configure_provider_doh false true googleWorld "7" ["1.1.1.1"]
        (some "https://cloudflare-dns.example/dns-query") false true false).2.1 ∧
    (configure_provider_doh false true googleWorld "7" ["1.1.1.1"]
        (some "https://cloudflare-dns.example/dns-query") false true false).2.2.configs "7" =
      IfaceConfig.explicit ["1.1.1.1"] := by
  have h := C5_doh_unsupported_best_effort true googleWorld "7" ["1.1.1.1"]
    "https://cloudflare-dns.example/dns-query" false true false
    (by decide) rfl (by decide) (by decide)
  exact ⟨by decide, rfl, h.1, h.2.2.1, h.2.2.2.1⟩

end DNSChanger
